import Mathlib

/-
Verification development for the py-aci-upgrade repository.

Shallow embedding of the pure/decision logic of the Python sources
(`util.py`, `upgrade.py`, `pre_post.py`, `health.py`):

* `State` mirrors `util.State` (OK / FAIL / PENDING).
* Remote records (`maintUpgJob`, `firmwareFirmware`, `faultInst`,
  `topSystem`, `isisRoute`) are modelled as flat structures; a field read
  with `dict.get(key)` (no default) becomes `Option String`, a field read
  with `dict.get(key, "")` becomes `String` (the default is absorbed).
* Network I/O is modelled by passing the query results in as arguments and
  by recording the side-effecting steps a stage performs in an `Effect`
  trace.
* Wall-clock time is idealised: `time.time()` is exact integer time that
  advances only during `time.sleep` (by the slept interval); loops are
  given explicit fuel and return `none` when the fuel runs out.
-/

namespace AciUpgrade

/-- Tri-state outcome, from `util.State`. -/
inductive State where
  | OK
  | FAIL
  | PENDING
deriving DecidableEq, Repr

/-! ## Maintenance groups (`upgrade.py`) -/

/-- One `maintUpgJob` attribute record, as read by `MaintGroup`:
`job.get("upgradeStatus")` and `job.get("desiredVersion")` (no defaults). -/
structure MaintJob where
  upgradeStatus : Option String
  desiredVersion : Option String
deriving DecidableEq, Repr

/-- One `firmwareFirmware` attribute record, as read by
`MaintGroup.is_firmware_downloaded`. -/
structure Firmware where
  fullVersion : Option String
  dnldStatus : Option String
deriving DecidableEq, Repr

/-- The per-job loop of `MaintGroup.is_already_upgraded` (upgrade.py
116-129): returns `False` on the first job that is not at the target
version or not `completeok`, otherwise `True`. -/
def is_already_upgraded (version_str : String) : List MaintJob → Bool
  | [] => true
  | job :: rest =>
    let is_target_ver := job.desiredVersion == some version_str
    let is_done := job.upgradeStatus == some "completeok"
    if !is_target_ver || (is_target_ver && !is_done) then false
    else is_already_upgraded version_str rest

/-- `MaintGroup.is_firmware_downloaded` (upgrade.py 131-139): a flag that
is set when some record matches the target version and is downloaded. -/
def is_firmware_downloaded (version_str : String) (records : List Firmware) : Bool :=
  records.foldl
    (fun acc record =>
      let is_target_ver := record.fullVersion == some version_str
      let is_downloaded := record.dnldStatus == some "downloaded"
      if is_target_ver && is_downloaded then true else acc)
    false

/-- The per-job loop of `MaintGroup.verify_complete` (upgrade.py 152-168);
the `state` accumulator is demoted to `PENDING` by any job whose status is
not `completeok` or whose version differs from the target.  (The `node_id`
computation in the source only feeds `log.debug` and is omitted.) -/
def verify_complete_go (version_str : String) : List MaintJob → State → State
  | [], state => state
  | job :: rest, state =>
    let state := if job.upgradeStatus ≠ some "completeok" then State.PENDING else state
    let state := if job.desiredVersion ≠ some version_str then State.PENDING else state
    verify_complete_go version_str rest state

/-- `MaintGroup.verify_complete` (upgrade.py 141-169): starts from `OK`,
demotes to `PENDING` when fewer jobs report than `device_count`, then runs
the per-job loop. -/
def verify_complete (device_count : Nat) (version_str : String)
    (jobs : List MaintJob) : State :=
  let state := State.OK
  let state := if jobs.length < device_count then State.PENDING else state
  verify_complete_go version_str jobs state

/-! ## Check registries (`health.py` / `pre_post.py`) -/

/-- `health.run_checks` (health.py 23-31), with each enabled check's
result on the given client supplied as a list element: the first `FAIL`
is returned immediately, otherwise `OK`. -/
def run_checks : List State → State
  | [] => State.OK
  | state :: rest => if state = State.FAIL then state else run_checks rest

/-- `pre_post.run_post_checks` (pre_post.py 77-85): the same loop shape as
`health.run_checks`, over the enabled post-change comparisons. -/
def run_post_checks : List State → State
  | [] => State.OK
  | state :: rest => if state = State.FAIL then state else run_post_checks rest

/-- Ghost observer for the registry loops: how many checks the loop in
`run_checks` / `run_post_checks` evaluates before returning (the loop
stops right after the first `FAIL`). -/
def run_checks_executed : List State → Nat
  | [] => 0
  | state :: rest => if state = State.FAIL then 1 else 1 + run_checks_executed rest

/-! ## Snapshot diff engine (`pre_post.py`) -/

/-- One `faultInst` record as read by `compare_faults`: `dn` is read with
`get("dn", "")` (default absorbed), the remaining fields are indexed or
read with defaults and are modelled as present. -/
structure Fault where
  dn : String
  severity : String
  code : String
  descr : String
deriving DecidableEq, Repr

/-- One `topSystem` record as read by `compare_devices`. -/
structure Device where
  dn : String
  name : String
deriving DecidableEq, Repr

/-- One `isisRoute` record as read by `compare_routes`. -/
structure Route where
  dn : String
  pfx : String
deriving DecidableEq, Repr

/-- The persisted snapshot record (pre_post.py 15-29). -/
structure Snapshot where
  faults : List Fault
  devices : List Device
  isis_routes : List Route
deriving DecidableEq, Repr

/-- The inner classification loop of `compare_faults` (pre_post.py
93-100): a current fault is new unless some snapshot fault has a
non-empty (`truthy`) `dn` equal to its `dn`; a new fault is kept only if
its severity is not `"cleared"`. -/
def is_new_fault (snapshot_faults : List Fault) (current_fault : Fault) : Bool :=
  (snapshot_faults.all fun previous_fault =>
      !(previous_fault.dn ≠ "" && previous_fault.dn == current_fault.dn))
    && current_fault.severity ≠ "cleared"

/-- `compare_faults` (pre_post.py 89-129), with the current fault list
passed in for `get_faults(client)`.  The `by_code` aggregation and the
debug branch only produce log output and are omitted; the outcome is
`FAIL` exactly when some new fault has severity `"critical"`. -/
def compare_faults (current : List Fault) (snapshot : Snapshot) : State :=
  let new_faults := current.filter (is_new_fault snapshot.faults)
  if new_faults.length > 0 then
    let has_new_critical_fault := new_faults.any fun fault => fault.severity == "critical"
    if has_new_critical_fault then State.FAIL else State.OK
  else State.OK

/-- `compare_devices` (pre_post.py 132-143), with the current device list
passed in for `get_devices(client)`. -/
def compare_devices (current : List Device) (snapshot : Snapshot) : State :=
  let current_dns := current.map Device.dn
  let has_missing := snapshot.devices.any fun device => !(current_dns.contains device.dn)
  if has_missing then State.FAIL else State.OK

/-- `compare_routes` (pre_post.py 146-159), with the current route list
passed in for `get_interpod_routes(client)`. -/
def compare_routes (current : List Route) (snapshot : Snapshot) : State :=
  let current_dns := current.map Route.dn
  let has_missing := snapshot.isis_routes.any fun route => !(current_dns.contains route.dn)
  if has_missing then State.FAIL else State.OK

/-! ## Upgrade stages (`upgrade.py`) -/

/-- The side-effecting steps of `upgrade_apics` / `upgrade_switches`, in
the order the source performs them: the `get_maint_job` query inside
`MaintGroup.__init__`, the `get_maint_job` query inside
`is_already_upgraded`, the `firmwareFirmware` query inside
`is_firmware_downloaded`, the state-changing trigger POST, and the final
`loop_for(3600, client, group.verify_complete)` poll. -/
inductive Effect where
  | queryJobsInit
  | queryJobsCheck
  | queryFirmware
  | triggerPost
  | verifyLoop
deriving DecidableEq, Repr

/-- The remote responses an upgrade stage can observe: the two
`maintUpgJob` query results, the firmware repository listing, whether the
trigger POST answers with status 200, and the resolved outcome of the
final `loop_for` completion poll (abstracted, since it depends on the
polling schedule). -/
structure StageWorld where
  jobsInit : List MaintJob
  jobsCheck : List MaintJob
  firmware : List Firmware
  postOk : Bool
  loopResult : State
deriving Repr

/-- `upgrade_apics` (upgrade.py 172-247), returning the stage outcome
together with the trace of side-effecting steps performed.  The
`MaintGroup` is built with `version_str = "apic-" ++ version`; the stage
returns `OK` straight after `is_already_upgraded`, `FAIL` when the
firmware is absent or the POST is rejected, and the `loop_for` outcome
otherwise. -/
def upgrade_apics (version : String) (w : StageWorld) : State × List Effect :=
  let version_str := "apic-" ++ version
  let effects := [Effect.queryJobsInit, Effect.queryJobsCheck]
  if is_already_upgraded version_str w.jobsCheck then (State.OK, effects)
  else
    let effects := effects ++ [Effect.queryFirmware]
    if !is_firmware_downloaded version_str w.firmware then (State.FAIL, effects)
    else
      let effects := effects ++ [Effect.triggerPost]
      if !w.postOk then (State.FAIL, effects)
      else (w.loopResult, effects ++ [Effect.verifyLoop])

/-- `upgrade_switches` (upgrade.py 250-285): the same stage shape as
`upgrade_apics` with `version_str = "n9000-" ++ version` and the group
name only feeding the POST body. -/
def upgrade_switches (fw_group : String) (version : String) (w : StageWorld) :
    State × List Effect :=
  let version_str := "n9000-" ++ version
  let _ := fw_group
  let effects := [Effect.queryJobsInit, Effect.queryJobsCheck]
  if is_already_upgraded version_str w.jobsCheck then (State.OK, effects)
  else
    let effects := effects ++ [Effect.queryFirmware]
    if !is_firmware_downloaded version_str w.firmware then (State.FAIL, effects)
    else
      let effects := effects ++ [Effect.triggerPost]
      if !w.postOk then (State.FAIL, effects)
      else (w.loopResult, effects ++ [Effect.verifyLoop])

/-! ## Gating pipeline (`util.py` `panic_gate` / `workflow_gate`,
`upgrade.py` `run`) -/

/-- Non-local exits of the gating helpers: `Abort.exited c` models
`exit(c)` (Python `SystemExit`, not caught by `except GatingEvent`);
`Abort.gating name` models `raise GatingEvent(name)`. -/
inductive Abort where
  | exited (code : Nat)
  | gating (name : String)
deriving DecidableEq, Repr

/-- `workflow_gate` (util.py 245-249): on `FAIL` it logs and calls
`exit(1)`; otherwise it returns the state. -/
def workflow_gate (state : State) : Except Abort State :=
  if state = State.FAIL then Except.error (Abort.exited 1) else Except.ok state

/-- `panic_gate` (util.py 237-242): runs the stage, feeds the outcome
through `workflow_gate`, and raises `GatingEvent(message)` when the
returned state is `FAIL`. -/
def panic_gate (state : State) (message : String) : Except Abort State :=
  match workflow_gate state with
  | Except.error a => Except.error a
  | Except.ok st =>
    if st = State.FAIL then Except.error (Abort.gating message) else Except.ok st

/-- What `upgrade.run` ends up doing: either it returns a `State` to its
caller, or the process terminates first via `exit`. -/
inductive RunResult where
  | returned (s : State)
  | exited (code : Nat)
deriving DecidableEq, Repr

/-- The stage sequence inside the `try:` block of `upgrade.run`
(upgrade.py 294-302), abstracted over the list of (stage name, resolved
stage outcome) pairs: each stage goes through `panic_gate` and any abort
stops the sequence. -/
def run_gates : List (String × State) → Except Abort Unit
  | [] => Except.ok ()
  | (name, state) :: rest =>
    match panic_gate state name with
    | Except.error a => Except.error a
    | Except.ok _ => run_gates rest

/-- `upgrade.run` (upgrade.py 288-306) with a client present, abstracted
over the stage list: `except GatingEvent` converts a gating abort into a
returned `FAIL`, a normal exit of the `try:` block returns `OK`, and a
`SystemExit` from `workflow_gate` propagates past the handler and
terminates the process. -/
def upgrade_run (stages : List (String × State)) : RunResult :=
  match run_gates stages with
  | Except.ok () => RunResult.returned State.OK
  | Except.error (Abort.gating _) => RunResult.returned State.FAIL
  | Except.error (Abort.exited c) => RunResult.exited c

/-- Ghost observer: the names of the stages whose operation actually runs
before `upgrade_run` stops (every stage up to and including the first one
whose `panic_gate` aborts). -/
def executed_stages : List (String × State) → List String
  | [] => []
  | (name, state) :: rest =>
    name ::
      (match panic_gate state name with
       | Except.error _ => []
       | Except.ok _ => executed_stages rest)

/-! ## Python call binding (`health.run` / `pre_post.run` calling
`loop_for`) -/

/-- Result of calling a Python function: either the call binds its
required parameters and produces a value, or binding fails and the call
raises `TypeError` before the callee's body runs. -/
inductive PyOutcome (α : Type) where
  | ok (val : α)
  | typeError
deriving DecidableEq, Repr

/-- The parameters of `util.loop_for` (util.py 270-276) that have no
default value and must be bound by every call. -/
def loop_for_required_params : List String := ["x", "client", "fn"]

/-- Python call binding for positional-or-keyword parameters: a call with
`numPositional` positional arguments and the given keyword names binds
exactly when every required parameter not covered positionally is passed
by keyword. -/
def call_binds_required (required : List String) (numPositional : Nat)
    (keywords : List String) : Bool :=
  (required.drop numPositional).all fun p => keywords.contains p

/-- A call to `loop_for`: if the required parameters bind, the (abstract)
resolved loop outcome is produced, otherwise the call raises `TypeError`. -/
def py_call_loop_for (numPositional : Nat) (keywords : List String)
    (loopResult : State) : PyOutcome State :=
  if call_binds_required loop_for_required_params numPositional keywords
  then PyOutcome.ok loopResult
  else PyOutcome.typeError

/-- `health.run` (health.py 302-308): evaluates
`loop_for(timeout, run_checks, fail_msg=...)` — two positional arguments
plus the `fail_msg` keyword — and then returns the resulting state. -/
def health_run (timeout : Int) (loopResult : State) : PyOutcome State :=
  let _ := timeout
  match py_call_loop_for 2 ["fail_msg"] loopResult with
  | PyOutcome.typeError => PyOutcome.typeError
  | PyOutcome.ok s => PyOutcome.ok s

/-- `pre_post.run` (pre_post.py 169-188): returns `FAIL` when the initial
`login_loop_for` yields no client; otherwise, when the snapshot file
already existed, evaluates `loop_for(timeout, _run_checks, fail_msg=...)`
— again two positional arguments plus `fail_msg` — and returns its state;
when the snapshot was just created it returns `OK`. -/
def pre_post_run (loginOk : Bool) (snapshotExists : Bool)
    (loopResult : State) : PyOutcome State :=
  if !loginOk then PyOutcome.ok State.FAIL
  else if snapshotExists then
    match py_call_loop_for 2 ["fail_msg"] loopResult with
    | PyOutcome.typeError => PyOutcome.typeError
    | PyOutcome.ok s => PyOutcome.ok s
  else PyOutcome.ok State.OK

/-! ## Retry loop (`util.py` `loop_for` / `login_loop_for`)

Time model: `time.time()` is an exact integer clock that advances only
inside `time.sleep` (by the slept interval); function evaluation itself
takes no time.  The outside world is a pair of oracles: the result of the
k-th call of the looped operation `fn` (a `State`, or the exception the
call raises) and the success of the k-th login attempt.  Both loops get
explicit fuel and answer `none` when it runs out. -/

/-- What the k-th evaluation of `fn(client)` inside `loop_for` does:
return a `State`, or raise one of the exception classes `loop_for`
catches (util.py 299-315). -/
inductive FnRes where
  | ok
  | pending
  | fail
  | interrupt
  | timeoutErr
  | connErr
  | authErr
  | otherErr
deriving DecidableEq, Repr

/-- The configuration values the loops read (`config["retry_interval"]`,
`config["login_interval"]`), plus the fuel given to each
`login_loop_for` call. -/
structure LoopCfg where
  retry_interval : Int
  login_interval : Int
  loginFuel : Nat
deriving Repr

/-- The oracles for a `loop_for` run: `fnRes k` is the behaviour of the
k-th `fn(client)` call, `loginOk k` tells whether the k-th
`Client(config)` construction succeeds. -/
structure LoopWorld where
  fnRes : Nat → FnRes
  loginOk : Nat → Bool

/-- Ghost-instrumented machine state threaded through the loops: the
integer clock and the number of `fn` calls and login attempts so far. -/
structure LoopSt where
  now : Int
  fnCalls : Nat
  loginAttempts : Nat
deriving DecidableEq, Repr

/-- How a `loop_for` run ends: with a returned `State`, or with the
`exit(0)` performed on `KeyboardInterrupt`. -/
inductive LoopOut where
  | state (s : State)
  | exit0
deriving DecidableEq, Repr

/-- The `while` loop of `login_loop_for` (util.py 256-267): loop while
`time.time() - start_time < x or once`; each iteration attempts
`Client(config)` and on failure sleeps `login_interval`; falling out of
the loop returns `None`. -/
def login_loop_go (w : LoopWorld) (login_int : Int) (x : Int) (start : Int) :
    Nat → Bool → LoopSt → Option (Option Unit × LoopSt)
  | 0, _, _ => none
  | fuel + 1, once, st =>
    if st.now - start < x ∨ once then
      let k := st.loginAttempts
      let st1 : LoopSt := { st with loginAttempts := k + 1 }
      if w.loginOk k then some (some (), st1)
      else login_loop_go w login_int x start fuel false
        { st1 with now := st1.now + login_int }
    else some (none, st)

/-- `login_loop_for(x, config)` (util.py 256-267): `once = x == -1`,
`start_time = time.time()`. -/
def login_loop_for (w : LoopWorld) (cfg : LoopCfg) (x : Int) (st : LoopSt) :
    Option (Option Unit × LoopSt) :=
  login_loop_go w cfg.login_interval x st.now cfg.loginFuel (x == -1) st

/-- The `while` loop of `loop_for` (util.py 280-318): loop while
`client is not None and (time.time() - start_time < x or once)`;
the body computes `remaining_time = x - elapsed_time`, evaluates
`fn(client)` and dispatches on its result or exception exactly as the
source's `if`/`except` chain does; falling out of the loop returns
`State.FAIL` ("Exceeded retry timeout"). -/
def loop_for_go (w : LoopWorld) (cfg : LoopCfg) (x : Int) (start : Int) :
    Nat → Option Unit → Bool → LoopSt → Option (LoopOut × LoopSt)
  | 0, _, _, _ => none
  | fuel + 1, client, once, st =>
    if client = none then some (LoopOut.state State.FAIL, st)
    else if st.now - start < x ∨ once then
      let elapsed_time := st.now - start
      let remaining_time := x - elapsed_time
      let k := st.fnCalls
      let st1 : LoopSt := { st with fnCalls := k + 1 }
      match w.fnRes k with
      | FnRes.ok => some (LoopOut.state State.OK, st1)
      | FnRes.pending =>
        let st2 := { st1 with now := st1.now + cfg.retry_interval }
        match login_loop_for w cfg remaining_time st2 with
        | none => none
        | some (client1, st3) => loop_for_go w cfg x start fuel client1 false st3
      | FnRes.fail =>
        let st2 := { st1 with now := st1.now + cfg.retry_interval }
        match login_loop_for w cfg remaining_time st2 with
        | none => none
        | some (client1, st3) => loop_for_go w cfg x start fuel client1 false st3
      | FnRes.interrupt => some (LoopOut.exit0, st1)
      | FnRes.timeoutErr =>
        let st2 := { st1 with now := st1.now + cfg.retry_interval }
        loop_for_go w cfg x start fuel client false st2
      | FnRes.connErr =>
        match login_loop_for w cfg remaining_time st1 with
        | none => none
        | some (client1, st3) => loop_for_go w cfg x start fuel client1 false st3
      | FnRes.authErr =>
        match login_loop_for w cfg remaining_time st1 with
        | none => none
        | some (client1, st3) => loop_for_go w cfg x start fuel client1 false st3
      | FnRes.otherErr =>
        let st2 := { st1 with now := st1.now + cfg.retry_interval }
        match login_loop_for w cfg remaining_time st2 with
        | none => none
        | some (client1, st3) => loop_for_go w cfg x start fuel client1 false st3
    else some (LoopOut.state State.FAIL, st)

/-- `loop_for(x, client, fn, ...)` (util.py 270-318): `once = x == -1`,
`start_time = time.time()`. -/
def loop_for (fuel : Nat) (w : LoopWorld) (cfg : LoopCfg) (x : Int)
    (client : Option Unit) (st : LoopSt) : Option (LoopOut × LoopSt) :=
  loop_for_go w cfg x st.now fuel client (x == -1) st

/-! ## Concrete worlds used by witnesses and counterexamples -/

/-- An operation that fails (business `FAIL`) on its first call and
succeeds on every later call. -/
def wFailThenOk : LoopWorld :=
  ⟨fun j => if j = 0 then FnRes.fail else FnRes.ok, fun _ => true⟩

/-- Like `wFailThenOk` but the first call reports `PENDING` instead. -/
def wPendThenOk : LoopWorld :=
  ⟨fun j => if j = 0 then FnRes.pending else FnRes.ok, fun _ => true⟩

/-- Unit retry/login intervals with a little login fuel. -/
def cfgUnit : LoopCfg := ⟨1, 1, 3⟩

end AciUpgrade

namespace AciUpgrade

/-! # Helper lemmas -/

theorem verify_complete_go_ne_fail (v : String) (jobs : List MaintJob) :
    ∀ st : State, st ≠ State.FAIL → verify_complete_go v jobs st ≠ State.FAIL := by
  induction jobs with
  | nil => intro st h; exact h
  | cons j rest ih =>
    intro st h
    simp only [verify_complete_go]
    apply ih
    split_ifs <;> simp_all

theorem verify_complete_go_eq_ok (v : String) (jobs : List MaintJob) :
    ∀ st : State, verify_complete_go v jobs st = State.OK ↔
      st = State.OK ∧
        ∀ j ∈ jobs, j.upgradeStatus = some "completeok" ∧ j.desiredVersion = some v := by
  induction jobs with
  | nil => intro st; simp [verify_complete_go]
  | cons j rest ih =>
    intro st
    simp only [verify_complete_go]
    rw [ih]
    constructor
    · rintro ⟨h1, h2⟩
      split_ifs at h1 with hdv hus
      rw [not_ne_iff] at hdv hus
      refine ⟨h1, ?_⟩
      intro x hx
      rcases List.mem_cons.mp hx with rfl | hx
      · exact ⟨hus, hdv⟩
      · exact h2 x hx
    · rintro ⟨h1, h2⟩
      have hj := h2 j (by simp)
      constructor
      · simp [hj.1, hj.2, h1]
      · intro x hx
        exact h2 x (by simp [hx])

theorem run_checks_of_no_fail (checks : List State) (h : State.FAIL ∉ checks) :
    run_checks checks = State.OK ∧ run_checks_executed checks = checks.length := by
  induction checks with
  | nil => simp [run_checks, run_checks_executed]
  | cons c rest ih =>
    simp only [List.mem_cons, not_or] at h
    have hc : c ≠ State.FAIL := fun hcc => h.1 hcc.symm
    obtain ⟨h1, h2⟩ := ih h.2
    simp [run_checks, run_checks_executed, hc, h1, h2, Nat.add_comm]

theorem run_checks_first_fail (pre post : List State) (h : State.FAIL ∉ pre) :
    run_checks (pre ++ State.FAIL :: post) = State.FAIL ∧
      run_checks_executed (pre ++ State.FAIL :: post) = pre.length + 1 := by
  induction pre with
  | nil => simp [run_checks, run_checks_executed]
  | cons c rest ih =>
    simp only [List.mem_cons, not_or] at h
    have hc : c ≠ State.FAIL := fun hcc => h.1 hcc.symm
    obtain ⟨h1, h2⟩ := ih h.2
    refine ⟨?_, ?_⟩
    · simp [run_checks, hc, h1]
    · simp [run_checks_executed, hc, h2]
      omega

theorem run_post_checks_eq_run_checks (checks : List State) :
    run_post_checks checks = run_checks checks := by
  induction checks with
  | nil => rfl
  | cons c rest ih => simp [run_post_checks, run_checks, ih]

theorem is_new_fault_iff (snap : List Fault) (f : Fault) :
    is_new_fault snap f = true ↔
      ((∀ p ∈ snap, p.dn = "" ∨ p.dn ≠ f.dn) ∧ f.severity ≠ "cleared") := by
  simp only [is_new_fault, Bool.and_eq_true, List.all_eq_true, Bool.not_eq_true',
    Bool.and_eq_false_iff, decide_eq_false_iff_not, not_not, beq_eq_false_iff_ne,
    decide_eq_true_eq]

theorem is_already_upgraded_of_all (v : String) (jobs : List MaintJob)
    (h : ∀ j ∈ jobs, j.desiredVersion = some v ∧ j.upgradeStatus = some "completeok") :
    is_already_upgraded v jobs = true := by
  induction jobs with
  | nil => rfl
  | cons j rest ih =>
    obtain ⟨h1, h2⟩ := h j (by simp)
    simp only [is_already_upgraded, h1, h2]
    simp only [beq_self_eq_true, Bool.not_true, Bool.and_false, Bool.false_or,
      Bool.and_self, if_false, Bool.false_eq_true, if_neg]
    exact ih fun x hx => h x (by simp [hx])

/-! # Claim theorems -/

/-- C3: `MaintGroup.verify_complete` returns `PENDING` whenever fewer job
records exist than the expected member count, `PENDING` whenever some job
has `upgradeStatus ≠ "completeok"` or `desiredVersion ≠` the target
version string, `OK` when the record count is at least the expected count
and every job is `completeok` at the target version, and never returns
`FAIL`. -/
theorem verify_complete_spec (device_count : Nat) (v : String) (jobs : List MaintJob) :
    (jobs.length < device_count →
      verify_complete device_count v jobs = State.PENDING) ∧
    (∀ j ∈ jobs, (j.upgradeStatus ≠ some "completeok" ∨ j.desiredVersion ≠ some v) →
      verify_complete device_count v jobs = State.PENDING) ∧
    (device_count ≤ jobs.length →
      (∀ j ∈ jobs, j.upgradeStatus = some "completeok" ∧ j.desiredVersion = some v) →
      verify_complete device_count v jobs = State.OK) ∧
    verify_complete device_count v jobs ≠ State.FAIL := by
  have hne : verify_complete device_count v jobs ≠ State.FAIL := by
    apply verify_complete_go_ne_fail
    split <;> simp
  have hok : verify_complete device_count v jobs = State.OK ↔
      (if jobs.length < device_count then State.PENDING else State.OK) = State.OK ∧
        ∀ j ∈ jobs, j.upgradeStatus = some "completeok" ∧ j.desiredVersion = some v :=
    verify_complete_go_eq_ok v jobs _
  refine ⟨?_, ?_, ?_, hne⟩
  · intro hlt
    rcases h : verify_complete device_count v jobs with _ | _ | _
    · rw [hok] at h
      rw [if_pos hlt] at h
      exact absurd h.1 (by decide)
    · exact absurd h hne
    · rfl
  · intro j hj hbad
    rcases h : verify_complete device_count v jobs with _ | _ | _
    · rw [hok] at h
      rcases hbad with hb | hb <;> exact absurd (h.2 j hj) (by simp_all)
    · exact absurd h hne
    · rfl
  · intro hge hall
    rw [hok, if_neg (Nat.not_lt.mpr hge)]
    exact ⟨rfl, hall⟩

/-- C3 witness: with an expected count of 3 and only two fully upgraded
job records, `verify_complete` reports `PENDING` and not `FAIL`. -/
theorem verify_complete_spec_witness :
    verify_complete 3 "t"
        [⟨some "completeok", some "t"⟩, ⟨some "completeok", some "t"⟩] = State.PENDING ∧
      verify_complete 3 "t"
        [⟨some "completeok", some "t"⟩, ⟨some "completeok", some "t"⟩] ≠ State.FAIL :=
  ⟨(verify_complete_spec 3 "t"
      [⟨some "completeok", some "t"⟩, ⟨some "completeok", some "t"⟩]).1 (by decide),
   (verify_complete_spec 3 "t"
      [⟨some "completeok", some "t"⟩, ⟨some "completeok", some "t"⟩]).2.2.2⟩

/-- C8: `run_checks` (and `run_post_checks`) evaluates the registered
check results strictly in registration order, returns `FAIL` at the first
`FAIL` without evaluating any later check, and returns `OK` when every
check has been evaluated with no `FAIL` result. -/
theorem run_checks_spec (pre post : List State) :
    (State.FAIL ∉ pre →
      run_checks (pre ++ State.FAIL :: post) = State.FAIL ∧
        run_checks_executed (pre ++ State.FAIL :: post) = pre.length + 1) ∧
    (State.FAIL ∉ pre →
      run_checks pre = State.OK ∧ run_checks_executed pre = pre.length) ∧
    run_post_checks (pre ++ State.FAIL :: post) = run_checks (pre ++ State.FAIL :: post) ∧
    run_post_checks pre = run_checks pre :=
  ⟨run_checks_first_fail pre post, run_checks_of_no_fail pre,
   run_post_checks_eq_run_checks _, run_post_checks_eq_run_checks _⟩

/-- C8 witness: for results `[OK, FAIL, OK]` the registry stops after the
second check with `FAIL`, and for `[OK, PENDING]` it runs both checks and
returns `OK`. -/
theorem run_checks_spec_witness :
    run_checks [State.OK, State.FAIL, State.OK] = State.FAIL ∧
      run_checks_executed [State.OK, State.FAIL, State.OK] = 2 ∧
      run_checks [State.OK, State.PENDING] = State.OK ∧
      run_checks_executed [State.OK, State.PENDING] = 2 :=
  ⟨((run_checks_spec [State.OK] [State.OK]).1 (by decide)).1,
   ((run_checks_spec [State.OK] [State.OK]).1 (by decide)).2,
   ((run_checks_spec [State.OK, State.PENDING] []).2.1 (by decide)).1,
   ((run_checks_spec [State.OK, State.PENDING] []).2.1 (by decide)).2⟩

/-- C6: `compare_devices` returns `FAIL` exactly when some device `dn`
from the snapshot is absent from the current device list, and
`compare_routes` returns `FAIL` exactly when some route `dn` from the
snapshot is absent from the current route list; both otherwise return
`OK` (new entries on the current side never cause `FAIL`). -/
theorem compare_devices_routes_spec (curD : List Device) (curR : List Route)
    (snapshot : Snapshot) :
    (compare_devices curD snapshot = State.FAIL ↔
      ∃ d ∈ snapshot.devices, d.dn ∉ curD.map Device.dn) ∧
    (compare_devices curD snapshot = State.FAIL ∨ compare_devices curD snapshot = State.OK) ∧
    (compare_routes curR snapshot = State.FAIL ↔
      ∃ r ∈ snapshot.isis_routes, r.dn ∉ curR.map Route.dn) ∧
    (compare_routes curR snapshot = State.FAIL ∨ compare_routes curR snapshot = State.OK) := by
  refine ⟨?_, ?_, ?_, ?_⟩
  · simp only [compare_devices]
    split <;> rename_i h
    · simp only [List.any_eq_true, Bool.not_eq_true'] at h
      simpa using h
    · simp only [List.any_eq_true, Bool.not_eq_true'] at h
      constructor
      · intro hfail
        exact absurd hfail (by decide)
      · intro hex
        exact absurd (by simpa using hex) h
  · simp only [compare_devices]
    split
    · exact Or.inl rfl
    · exact Or.inr rfl
  · simp only [compare_routes]
    split <;> rename_i h
    · simp only [List.any_eq_true, Bool.not_eq_true'] at h
      simpa using h
    · simp only [List.any_eq_true, Bool.not_eq_true'] at h
      constructor
      · intro hfail
        exact absurd hfail (by decide)
      · intro hex
        exact absurd (by simpa using hex) h
  · simp only [compare_routes]
    split
    · exact Or.inl rfl
    · exact Or.inr rfl

/-- C6 witness: a previously known device missing from the current
inventory yields `FAIL`, while a purely new device (and route) yields
`OK`. -/
theorem compare_devices_routes_spec_witness :
    compare_devices [] ⟨[], [⟨"d1", "apic1"⟩], []⟩ = State.FAIL ∧
      compare_devices [⟨"d1", "apic1"⟩, ⟨"d2", "apic2"⟩]
        ⟨[], [⟨"d1", "apic1"⟩], []⟩ = State.OK ∧
      compare_routes [⟨"r1", "10.0.0.0/16"⟩, ⟨"r2", "10.1.0.0/16"⟩]
        ⟨[], [], [⟨"r1", "10.0.0.0/16"⟩]⟩ = State.OK := by
  refine ⟨?_, ?_, ?_⟩
  · exact (compare_devices_routes_spec [] [] ⟨[], [⟨"d1", "apic1"⟩], []⟩).1.mpr
      (by decide)
  · rcases (compare_devices_routes_spec [⟨"d1", "apic1"⟩, ⟨"d2", "apic2"⟩] []
        ⟨[], [⟨"d1", "apic1"⟩], []⟩).2.1 with h | h
    · exact absurd ((compare_devices_routes_spec [⟨"d1", "apic1"⟩, ⟨"d2", "apic2"⟩] []
        ⟨[], [⟨"d1", "apic1"⟩], []⟩).1.mp h) (by decide)
    · exact h
  · rcases (compare_devices_routes_spec [] [⟨"r1", "10.0.0.0/16"⟩, ⟨"r2", "10.1.0.0/16"⟩]
        ⟨[], [], [⟨"r1", "10.0.0.0/16"⟩]⟩).2.2.2 with h | h
    · exact absurd ((compare_devices_routes_spec [] [⟨"r1", "10.0.0.0/16"⟩, ⟨"r2", "10.1.0.0/16"⟩]
        ⟨[], [], [⟨"r1", "10.0.0.0/16"⟩]⟩).2.2.1.mp h) (by decide)
    · exact h

/-- C5 counterexample: the snapshot contains a fault whose `dn` (the
empty string) equals the current critical fault's `dn`, so by the claim
the current fault is not new and the result should be `OK`; the code
still classifies it as new (the truthiness guard skips snapshot faults
with an empty `dn`) and returns `FAIL`. -/
theorem compare_faults_counterexample :
    compare_faults [⟨"", "critical", "F1", "d"⟩]
        ⟨[⟨"", "major", "F0", "d"⟩], [], []⟩ = State.FAIL ∧
      ∀ f ∈ [(⟨"", "critical", "F1", "d"⟩ : Fault)],
        ∃ p ∈ [(⟨"", "major", "F0", "d"⟩ : Fault)], p.dn = f.dn := by
  decide

/-- C5 (amended): `compare_faults` classifies as new exactly those
current faults whose `dn` does not match the `dn` of any snapshot fault
with a non-empty `dn` and whose severity is not `"cleared"`; it returns
`FAIL` iff at least one such new fault has severity `"critical"`, and
otherwise returns `OK` (never `PENDING`). -/
theorem compare_faults_spec (current : List Fault) (snapshot : Snapshot) :
    (compare_faults current snapshot = State.FAIL ↔
      ∃ f ∈ current, is_new_fault snapshot.faults f = true ∧ f.severity = "critical") ∧
    compare_faults current snapshot ≠ State.PENDING ∧
    (∀ f, is_new_fault snapshot.faults f = true ↔
      ((∀ p ∈ snapshot.faults, p.dn = "" ∨ p.dn ≠ f.dn) ∧ f.severity ≠ "cleared")) := by
  refine ⟨?_, ?_, fun f => is_new_fault_iff snapshot.faults f⟩
  · simp only [compare_faults]
    split_ifs with h1 h2
    · simp only [List.any_eq_true, List.mem_filter, beq_iff_eq] at h2
      constructor
      · intro _
        obtain ⟨f, ⟨hf, hnew⟩, hcrit⟩ := h2
        exact ⟨f, hf, hnew, hcrit⟩
      · intro _
        rfl
    · simp only [List.any_eq_true, List.mem_filter, beq_iff_eq] at h2
      constructor
      · intro hfail
        exact absurd hfail (by decide)
      · rintro ⟨f, hf, hnew, hcrit⟩
        exact absurd ⟨f, ⟨hf, hnew⟩, hcrit⟩ h2
    · constructor
      · intro hfail
        exact absurd hfail (by decide)
      · rintro ⟨f, hf, hnew, hcrit⟩
        have hmem : f ∈ current.filter (is_new_fault snapshot.faults) :=
          List.mem_filter.mpr ⟨hf, hnew⟩
        have hlen : 0 < (current.filter (is_new_fault snapshot.faults)).length :=
          List.length_pos.mpr (List.ne_nil_of_mem hmem)
        omega
  · simp only [compare_faults]
    split_ifs <;> decide

/-- C5 witness: for snapshot faults `[{dn:"f1",severity:"major"}]` and
current faults `[{dn:"f1",...}, {dn:"f2",severity:"critical"}]` the
comparison fails; if `f2`'s severity is `"minor"` it succeeds. -/
theorem compare_faults_spec_witness :
    compare_faults [⟨"f1", "major", "F0", "d"⟩, ⟨"f2", "critical", "F1", "d"⟩]
        ⟨[⟨"f1", "major", "F0", "d"⟩], [], []⟩ = State.FAIL ∧
      compare_faults [⟨"f1", "major", "F0", "d"⟩, ⟨"f2", "minor", "F1", "d"⟩]
        ⟨[⟨"f1", "major", "F0", "d"⟩], [], []⟩ = State.OK := by
  constructor
  · exact (compare_faults_spec
        [⟨"f1", "major", "F0", "d"⟩, ⟨"f2", "critical", "F1", "d"⟩]
        ⟨[⟨"f1", "major", "F0", "d"⟩], [], []⟩).1.mpr (by decide)
  · rcases h : compare_faults [⟨"f1", "major", "F0", "d"⟩, ⟨"f2", "minor", "F1", "d"⟩]
        ⟨[⟨"f1", "major", "F0", "d"⟩], [], []⟩ with _ | _ | _
    · rfl
    · exact absurd ((compare_faults_spec
          [⟨"f1", "major", "F0", "d"⟩, ⟨"f2", "minor", "F1", "d"⟩]
          ⟨[⟨"f1", "major", "F0", "d"⟩], [], []⟩).1.mp h) (by decide)
    · exact absurd h (compare_faults_spec
          [⟨"f1", "major", "F0", "d"⟩, ⟨"f2", "minor", "F1", "d"⟩]
          ⟨[⟨"f1", "major", "F0", "d"⟩], [], []⟩).2.1

/-- C7: when every member of the maintenance group already reports the
target version with `upgradeStatus = "completeok"` (so
`is_already_upgraded` is true), `upgrade_apics` and `upgrade_switches`
return `OK` right after the two `maintUpgJob` queries and never issue the
state-changing trigger POST. -/
theorem upgrade_stage_idempotent_spec (version fw_group : String) (wA wS : StageWorld)
    (hA : ∀ j ∈ wA.jobsCheck,
      j.desiredVersion = some ("apic-" ++ version) ∧ j.upgradeStatus = some "completeok")
    (hS : ∀ j ∈ wS.jobsCheck,
      j.desiredVersion = some ("n9000-" ++ version) ∧ j.upgradeStatus = some "completeok") :
    upgrade_apics version wA = (State.OK, [Effect.queryJobsInit, Effect.queryJobsCheck]) ∧
    Effect.triggerPost ∉ (upgrade_apics version wA).2 ∧
    upgrade_switches fw_group version wS
      = (State.OK, [Effect.queryJobsInit, Effect.queryJobsCheck]) ∧
    Effect.triggerPost ∉ (upgrade_switches fw_group version wS).2 := by
  have h1 := is_already_upgraded_of_all _ _ hA
  have h2 := is_already_upgraded_of_all _ _ hS
  refine ⟨?_, ?_, ?_, ?_⟩ <;> simp [upgrade_apics, upgrade_switches, h1, h2]

/-- C7 witness: a single-member group already at `apic-5.2` /
`n9000-5.2` and complete makes both stages return `OK` with only the two
job queries in their effect trace. -/
theorem upgrade_stage_idempotent_spec_witness :
    upgrade_apics "5.2" ⟨[], [⟨some "completeok", some "apic-5.2"⟩], [], true, State.OK⟩
      = (State.OK, [Effect.queryJobsInit, Effect.queryJobsCheck]) ∧
    upgrade_switches "G1" "5.2"
        ⟨[], [⟨some "completeok", some "n9000-5.2"⟩], [], true, State.OK⟩
      = (State.OK, [Effect.queryJobsInit, Effect.queryJobsCheck]) := by
  have h := upgrade_stage_idempotent_spec "5.2" "G1"
    ⟨[], [⟨some "completeok", some "apic-5.2"⟩], [], true, State.OK⟩
    ⟨[], [⟨some "completeok", some "n9000-5.2"⟩], [], true, State.OK⟩
    (by decide) (by decide)
  exact ⟨h.1, h.2.2.1⟩

/-- C10: with zero `maintUpgJob` records for the group,
`is_already_upgraded` is vacuously true and both upgrade stages return
`OK` immediately: the firmware repository is never queried, no trigger
POST is issued, and no completion verification loop runs. -/
theorem upgrade_stage_zero_jobs_spec (version fw_group : String)
    (jobsInit : List MaintJob) (fw : List Firmware) (postOk : Bool) (loopResult : State) :
    is_already_upgraded ("n9000-" ++ version) [] = true ∧
    upgrade_switches fw_group version ⟨jobsInit, [], fw, postOk, loopResult⟩
      = (State.OK, [Effect.queryJobsInit, Effect.queryJobsCheck]) ∧
    Effect.queryFirmware
      ∉ (upgrade_switches fw_group version ⟨jobsInit, [], fw, postOk, loopResult⟩).2 ∧
    Effect.triggerPost
      ∉ (upgrade_switches fw_group version ⟨jobsInit, [], fw, postOk, loopResult⟩).2 ∧
    Effect.verifyLoop
      ∉ (upgrade_switches fw_group version ⟨jobsInit, [], fw, postOk, loopResult⟩).2 ∧
    upgrade_apics version ⟨jobsInit, [], fw, postOk, loopResult⟩
      = (State.OK, [Effect.queryJobsInit, Effect.queryJobsCheck]) := by
  refine ⟨rfl, ?_, ?_, ?_, ?_, ?_⟩ <;>
    simp [upgrade_switches, upgrade_apics, is_already_upgraded]

/-- C9 counterexample: with the snapshot file present but the initial
login never succeeding within the timeout, `pre_post.run` returns
`State.FAIL` instead of raising `TypeError`, so it does produce a `State`
value in a case the claim covers. -/
theorem pre_post_run_counterexample :
    pre_post_run false true State.OK = PyOutcome.ok State.FAIL ∧
      pre_post_run false true State.OK ≠ PyOutcome.typeError := by
  decide

/-- C9 (amended): `health.run` raises `TypeError` for every timeout
before any check executes, because it passes `loop_for` only two
positional arguments (plus `fail_msg`) while `loop_for` requires three;
`pre_post.run` raises `TypeError` whenever the initial login succeeds and
a snapshot file already exists; when the snapshot was just created it
returns `OK`, and when the login times out it returns `FAIL` instead of
raising. -/
theorem loop_for_call_arity_spec (timeout : Int) (loopResult : State) :
    health_run timeout loopResult = PyOutcome.typeError ∧
    pre_post_run true true loopResult = PyOutcome.typeError ∧
    pre_post_run true false loopResult = PyOutcome.ok State.OK ∧
    pre_post_run false true loopResult = PyOutcome.ok State.FAIL :=
  ⟨rfl, rfl, rfl, rfl⟩

/-- C9 witness: the arity mismatch at a concrete timeout and loop
outcome. -/
theorem loop_for_call_arity_spec_witness :
    health_run 600 State.OK = PyOutcome.typeError ∧
      pre_post_run true true State.OK = PyOutcome.typeError :=
  ⟨(loop_for_call_arity_spec 600 State.OK).1, (loop_for_call_arity_spec 600 State.OK).2.1⟩

/-- The gating helpers reduce to a simple decision on the stage state:
`FAIL` exits the process (code 1) before the `GatingEvent` branch can
run, anything else passes through. -/
theorem panic_gate_eq (s : State) (msg : String) :
    panic_gate s msg =
      if s = State.FAIL then Except.error (Abort.exited 1) else Except.ok s := by
  cases s <;> rfl

theorem run_gates_ne_gating (stages : List (String × State)) (msg : String) :
    run_gates stages ≠ Except.error (Abort.gating msg) := by
  induction stages with
  | nil => simp [run_gates]
  | cons p rest ih =>
    obtain ⟨name, s⟩ := p
    simp only [run_gates, panic_gate_eq]
    split_ifs with hs
    · simp
    · simpa using ih

theorem run_gates_append_ok (pre rest : List (String × State))
    (h : ∀ p ∈ pre, p.2 ≠ State.FAIL) :
    run_gates (pre ++ rest) = run_gates rest := by
  induction pre with
  | nil => rfl
  | cons q qs ih =>
    obtain ⟨name, s⟩ := q
    have hs : s ≠ State.FAIL := h (name, s) (by simp)
    simp only [List.cons_append, run_gates, panic_gate_eq, if_neg hs]
    exact ih fun p hp => h p (by simp [hp])

theorem executed_stages_append_ok (pre rest : List (String × State))
    (h : ∀ p ∈ pre, p.2 ≠ State.FAIL) :
    executed_stages (pre ++ rest) = pre.map Prod.fst ++ executed_stages rest := by
  induction pre with
  | nil => rfl
  | cons q qs ih =>
    obtain ⟨name, s⟩ := q
    have hs : s ≠ State.FAIL := h (name, s) (by simp)
    simp only [List.cons_append, executed_stages, panic_gate_eq, if_neg hs, List.map_cons]
    rw [List.append_eq, ih fun p hp => h p (by simp [hp])]

theorem upgrade_run_no_returned_fail (stages : List (String × State)) :
    upgrade_run stages ≠ RunResult.returned State.FAIL := by
  unfold upgrade_run
  rcases hr : run_gates stages with a | u
  · cases a with
    | exited c => simp
    | gating msg => exact absurd hr (run_gates_ne_gating stages msg)
  · simp

/-- C2 counterexample: for stages `[A:OK, B:FAIL, C:OK]` the pipeline
executes A and B and skips C, but it terminates the process with exit
code 1 (via `workflow_gate`) instead of raising a `GatingEvent` named
"B"; `upgrade.run` never reports the workflow as `Failure` — its
`except GatingEvent` handler is unreachable. -/
theorem upgrade_run_counterexample :
    upgrade_run [("A", State.OK), ("B", State.FAIL), ("C", State.OK)]
        = RunResult.exited 1 ∧
      upgrade_run [("A", State.OK), ("B", State.FAIL), ("C", State.OK)]
        ≠ RunResult.returned State.FAIL ∧
      executed_stages [("A", State.OK), ("B", State.FAIL), ("C", State.OK)] = ["A", "B"] ∧
      ∀ msg : String,
        run_gates [("A", State.OK), ("B", State.FAIL), ("C", State.OK)]
          ≠ Except.error (Abort.gating msg) := by
  refine ⟨by decide, by decide, by decide, ?_⟩
  intro msg
  have h : run_gates [("A", State.OK), ("B", State.FAIL), ("C", State.OK)]
      = Except.error (Abort.exited 1) := rfl
  rw [h]
  simp

/-- C2 (amended): when a gating stage returns `Failure`, all earlier
(non-failing) stages and the failing stage execute, every later stage is
skipped, and the process terminates with exit code 1 from
`workflow_gate` before `panic_gate` can raise its `GatingEvent`; no
`GatingEvent` is ever raised and `upgrade.run` never reports the workflow
as `Failure` through this path. -/
theorem upgrade_run_gating_spec (pre : List (String × State)) (name : String)
    (post : List (String × State)) (h : ∀ p ∈ pre, p.2 ≠ State.FAIL) :
    upgrade_run (pre ++ (name, State.FAIL) :: post) = RunResult.exited 1 ∧
    executed_stages (pre ++ (name, State.FAIL) :: post) = pre.map Prod.fst ++ [name] ∧
    (∀ stages : List (String × State), ∀ msg : String,
      run_gates stages ≠ Except.error (Abort.gating msg)) ∧
    (∀ stages : List (String × State),
      upgrade_run stages ≠ RunResult.returned State.FAIL) := by
  have hgate : run_gates ((name, State.FAIL) :: post) = Except.error (Abort.exited 1) := by
    simp [run_gates, panic_gate_eq]
  refine ⟨?_, ?_, run_gates_ne_gating, upgrade_run_no_returned_fail⟩
  · unfold upgrade_run
    rw [run_gates_append_ok pre _ h, hgate]
  · rw [executed_stages_append_ok pre _ h]
    simp [executed_stages, panic_gate_eq]

/-- C2 witness: the amended behaviour at the concrete stage list
`[A:OK, B:FAIL, C:OK]`. -/
theorem upgrade_run_gating_spec_witness :
    upgrade_run [("A", State.OK), ("B", State.FAIL), ("C", State.OK)]
        = RunResult.exited 1 ∧
      executed_stages [("A", State.OK), ("B", State.FAIL), ("C", State.OK)] = ["A", "B"] := by
  have h := upgrade_run_gating_spec [("A", State.OK)] "B" [("C", State.OK)] (by decide)
  exact ⟨h.1, h.2.1⟩

/-- The login loop only observes the world through `loginOk`. -/
theorem login_loop_go_ext (w w2 : LoopWorld) (hlogin : w.loginOk = w2.loginOk)
    (login_int x start : Int) :
    ∀ (fuel : Nat) (once : Bool) (st : LoopSt),
      login_loop_go w login_int x start fuel once st
        = login_loop_go w2 login_int x start fuel once st := by
  intro fuel
  induction fuel with
  | zero => intro once st; rfl
  | succ n ih =>
    intro once st
    simp only [login_loop_go, hlogin]
    split
    · split
      · rfl
      · exact ih false _
    · rfl

theorem login_loop_for_ext (w w2 : LoopWorld) (hlogin : w.loginOk = w2.loginOk)
    (cfg : LoopCfg) (x : Int) (st : LoopSt) :
    login_loop_for w cfg x st = login_loop_for w2 cfg x st :=
  login_loop_go_ext w w2 hlogin cfg.login_interval x st.now cfg.loginFuel (x == -1) st

theorem loop_for_go_fail_pending (w w2 : LoopWorld) (k : Nat)
    (hlogin : w.loginOk = w2.loginOk)
    (hfn : ∀ j, j ≠ k → w.fnRes j = w2.fnRes j)
    (hk : w.fnRes k = FnRes.fail) (hk2 : w2.fnRes k = FnRes.pending)
    (cfg : LoopCfg) (x start : Int) :
    ∀ (fuel : Nat) (client : Option Unit) (once : Bool) (st : LoopSt),
      loop_for_go w cfg x start fuel client once st
        = loop_for_go w2 cfg x start fuel client once st := by
  intro fuel
  induction fuel with
  | zero => intro client once st; rfl
  | succ n ih =>
    intro client once st
    simp only [loop_for_go]
    split
    · rfl
    split
    case isFalse => rfl
    rcases eq_or_ne st.fnCalls k with hek | hek
    · rw [hek, hk, hk2]
      simp only
      rw [login_loop_for_ext w w2 hlogin]
      split
      · rfl
      · rename_i client1 st3 heq
        exact ih client1 false st3
    · rw [hfn _ hek]
      rcases hr : w2.fnRes st.fnCalls with _ | _ | _ | _ | _ | _ | _ | _ <;> simp only
      · rw [login_loop_for_ext w w2 hlogin]
        split
        · rfl
        · rename_i client1 st3 heq
          exact ih client1 false st3
      · rw [login_loop_for_ext w w2 hlogin]
        split
        · rfl
        · rename_i client1 st3 heq
          exact ih client1 false st3
      · exact ih client false _
      · rw [login_loop_for_ext w w2 hlogin]
        split
        · rfl
        · rename_i client1 st3 heq
          exact ih client1 false st3
      · rw [login_loop_for_ext w w2 hlogin]
        split
        · rfl
        · rename_i client1 st3 heq
          exact ih client1 false st3
      · rw [login_loop_for_ext w w2 hlogin]
        split
        · rfl
        · rename_i client1 st3 heq
          exact ih client1 false st3

/-- C1 counterexample: with deadline 10, an operation whose first call
returns an explicit business `FAIL` and whose second call returns `OK`,
`loop_for` does not return on the `FAIL`: it sleeps, re-logs-in and calls
the operation a second time (final `fnCalls = 2`), ending with `OK`. -/
theorem loop_for_fail_counterexample :
    wFailThenOk.fnRes 0 = FnRes.fail ∧
      loop_for 5 wFailThenOk cfgUnit 10 (some ()) ⟨0, 0, 0⟩
        = some (LoopOut.state State.OK, ⟨1, 2, 1⟩) := by
  exact ⟨rfl, rfl⟩

/-- C1 (amended): `loop_for` treats an explicit business `Failure` from
the operation exactly like `Pending` — it logs, sleeps the retry
interval, re-establishes the session and keeps looping (only the log
message differs): a run whose k-th operation result is `FAIL` is
indistinguishable, in final outcome and instrumented state, from the same
run with that result replaced by `PENDING`.  In particular the loop does
not return on `Failure`; it only returns on `Success`, deadline expiry,
or an unrecoverable login. -/
theorem loop_for_fail_retried_like_pending (w w2 : LoopWorld) (k : Nat)
    (hlogin : w.loginOk = w2.loginOk)
    (hfn : ∀ j, j ≠ k → w.fnRes j = w2.fnRes j)
    (hk : w.fnRes k = FnRes.fail) (hk2 : w2.fnRes k = FnRes.pending)
    (fuel : Nat) (cfg : LoopCfg) (x : Int) (client : Option Unit) (st : LoopSt) :
    loop_for fuel w cfg x client st = loop_for fuel w2 cfg x client st :=
  loop_for_go_fail_pending w w2 k hlogin hfn hk hk2 cfg x st.now fuel client (x == -1) st

/-- C1 witness: the equivalence applied to the concrete fail-then-ok and
pending-then-ok worlds at deadline 10. -/
theorem loop_for_fail_retried_like_pending_witness :
    loop_for 5 wFailThenOk cfgUnit 10 (some ()) ⟨0, 0, 0⟩
      = loop_for 5 wPendThenOk cfgUnit 10 (some ()) ⟨0, 0, 0⟩ :=
  loop_for_fail_retried_like_pending wFailThenOk wPendThenOk 0 rfl
    (fun j hj => by simp [wFailThenOk, wPendThenOk, hj])
    rfl rfl 5 cfgUnit 10 (some ()) ⟨0, 0, 0⟩

/-- With no client, the retry loop's condition fails at once and the loop
returns `FAIL` untouched. -/
theorem loop_for_go_none_client (w : LoopWorld) (cfg : LoopCfg) (x start : Int)
    (n : Nat) (once : Bool) (st : LoopSt) :
    loop_for_go w cfg x start (n + 1) none once st
      = some (LoopOut.state State.FAIL, st) := by
  simp [loop_for_go]

/-- Once the deadline has passed (and the `once` sentinel is spent), the
retry loop returns `FAIL` without touching the state. -/
theorem loop_for_go_expired (w : LoopWorld) (cfg : LoopCfg) (x start : Int)
    (n : Nat) (st : LoopSt) (h : ¬(st.now - start < x)) :
    loop_for_go w cfg x start (n + 1) (some ()) false st
      = some (LoopOut.state State.FAIL, st) := by
  simp [loop_for_go, h]

theorem loop_for_go_neg_one_stop (w : LoopWorld) (cfg : LoopCfg) (start : Int)
    (n : Nat) (client : Option Unit) (st : LoopSt)
    (h : ¬(st.now - start < (-1 : Int))) :
    loop_for_go w cfg (-1) start (n + 1) client false st
      = some (LoopOut.state State.FAIL, st) := by
  cases client with
  | none => exact loop_for_go_none_client w cfg (-1) start n false st
  | some u =>
    cases u
    exact loop_for_go_expired w cfg (-1) start n st h

/-- `login_loop_for` at the sentinel `-1`: the `once` flag grants exactly
one login attempt; a failed attempt sleeps once and the loop exits with
`None`. -/
theorem login_loop_for_neg_one (w : LoopWorld) (cfg : LoopCfg) (st : LoopSt)
    (hfuel : 2 ≤ cfg.loginFuel) (hli : 0 ≤ cfg.login_interval) :
    login_loop_for w cfg (-1) st =
      if w.loginOk st.loginAttempts then
        some (some (), { st with loginAttempts := st.loginAttempts + 1 })
      else
        some (none, { st with now := st.now + cfg.login_interval,
                              loginAttempts := st.loginAttempts + 1 }) := by
  obtain ⟨m, hm⟩ := Nat.exists_eq_add_of_le hfuel
  unfold login_loop_for
  rw [hm, Nat.add_comm 2 m]
  by_cases hlo : w.loginOk st.loginAttempts
  · simp [login_loop_go, hlo]
  · simp [login_loop_go, hlo]
    intro hbad
    exact absurd hbad (by omega)

/-- C4 counterexample: with deadline `0` (which is `≤ 0` and hence, per
the claim, should mean "retry forever"), `loop_for` immediately returns a
timeout `FAIL` on its own, without ever calling the operation (final
`fnCalls = 0`) — even though the operation would have kept answering
`PENDING`. -/
theorem loop_for_nonpositive_counterexample :
    loop_for 3 ⟨fun _ => FnRes.pending, fun _ => true⟩ ⟨1, 1, 3⟩ 0 (some ()) ⟨0, 0, 0⟩
      = some (LoopOut.state State.FAIL, ⟨0, 0, 0⟩) := rfl

/-- C4 (amended): only `-1` is a sentinel, and it means "one final
attempt", not "retry forever": for any deadline `x ≤ 0` with `x ≠ -1`,
`loop_for` returns `FAIL` immediately without calling the operation; for
`x = -1` the operation is evaluated exactly once more and the loop then
ends (with `OK` on success, by `exit(0)` on interrupt, and with `FAIL`
otherwise). -/
theorem loop_for_nonpositive_deadline_spec (w : LoopWorld) (cfg : LoopCfg)
    (x : Int) (st : LoopSt) (fuel : Nat) :
    (x ≤ 0 → x ≠ -1 → 1 ≤ fuel →
      loop_for fuel w cfg x (some ()) st = some (LoopOut.state State.FAIL, st)) ∧
    (2 ≤ fuel → 0 ≤ cfg.retry_interval → 0 ≤ cfg.login_interval → 2 ≤ cfg.loginFuel →
      ∃ out st2, loop_for fuel w cfg (-1) (some ()) st = some (out, st2) ∧
        st2.fnCalls = st.fnCalls + 1) := by
  constructor
  · intro hx hx1 hfuel
    obtain ⟨m, rfl⟩ : ∃ m, fuel = m + 1 := ⟨fuel - 1, by omega⟩
    unfold loop_for
    have honce : (x == (-1 : Int)) = false := beq_eq_false_iff_ne.mpr hx1
    rw [honce]
    exact loop_for_go_expired w cfg x st.now m st (by omega)
  · intro hfuel hret hli hlfuel
    obtain ⟨m, rfl⟩ : ∃ m, fuel = m + 2 := ⟨fuel - 2, by omega⟩
    unfold loop_for
    rw [loop_for_go.eq_2]
    rw [if_neg (by simp), if_pos (Or.inr (by simp))]
    simp only
    have hrem : (-1 : Int) - (st.now - st.now) = -1 := by omega
    rcases hr : w.fnRes st.fnCalls with _ | _ | _ | _ | _ | _ | _ | _
    case ok => exact ⟨_, _, rfl, rfl⟩
    case interrupt => exact ⟨_, _, rfl, rfl⟩
    case pending =>
      simp only
      rw [hrem, login_loop_for_neg_one w cfg _ hlfuel hli]
      simp only
      by_cases hlo : w.loginOk st.loginAttempts
      · rw [if_pos hlo]
        simp only
        rw [loop_for_go_neg_one_stop w cfg st.now m (some ()) _ (by simp; omega)]
        exact ⟨_, _, rfl, rfl⟩
      · rw [if_neg hlo]
        simp only
        rw [loop_for_go_neg_one_stop w cfg st.now m none _ (by simp; omega)]
        exact ⟨_, _, rfl, rfl⟩
    case fail =>
      simp only
      rw [hrem, login_loop_for_neg_one w cfg _ hlfuel hli]
      simp only
      by_cases hlo : w.loginOk st.loginAttempts
      · rw [if_pos hlo]
        simp only
        rw [loop_for_go_neg_one_stop w cfg st.now m (some ()) _ (by simp; omega)]
        exact ⟨_, _, rfl, rfl⟩
      · rw [if_neg hlo]
        simp only
        rw [loop_for_go_neg_one_stop w cfg st.now m none _ (by simp; omega)]
        exact ⟨_, _, rfl, rfl⟩
    case timeoutErr =>
      simp only
      rw [loop_for_go_neg_one_stop w cfg st.now m (some ()) _ (by simp; omega)]
      exact ⟨_, _, rfl, rfl⟩
    case connErr =>
      simp only
      rw [hrem, login_loop_for_neg_one w cfg _ hlfuel hli]
      simp only
      by_cases hlo : w.loginOk st.loginAttempts
      · rw [if_pos hlo]
        simp only
        rw [loop_for_go_neg_one_stop w cfg st.now m (some ()) _ (by simp)]
        exact ⟨_, _, rfl, rfl⟩
      · rw [if_neg hlo]
        simp only
        rw [loop_for_go_neg_one_stop w cfg st.now m none _ (by simp; omega)]
        exact ⟨_, _, rfl, rfl⟩
    case authErr =>
      simp only
      rw [hrem, login_loop_for_neg_one w cfg _ hlfuel hli]
      simp only
      by_cases hlo : w.loginOk st.loginAttempts
      · rw [if_pos hlo]
        simp only
        rw [loop_for_go_neg_one_stop w cfg st.now m (some ()) _ (by simp)]
        exact ⟨_, _, rfl, rfl⟩
      · rw [if_neg hlo]
        simp only
        rw [loop_for_go_neg_one_stop w cfg st.now m none _ (by simp; omega)]
        exact ⟨_, _, rfl, rfl⟩
    case otherErr =>
      simp only
      rw [hrem, login_loop_for_neg_one w cfg _ hlfuel hli]
      simp only
      by_cases hlo : w.loginOk st.loginAttempts
      · rw [if_pos hlo]
        simp only
        rw [loop_for_go_neg_one_stop w cfg st.now m (some ()) _ (by simp; omega)]
        exact ⟨_, _, rfl, rfl⟩
      · rw [if_neg hlo]
        simp only
        rw [loop_for_go_neg_one_stop w cfg st.now m none _ (by simp; omega)]
        exact ⟨_, _, rfl, rfl⟩

/-- C4 witness: at deadline `0` the loop fails immediately with no calls;
at the sentinel `-1` a pending-then-ok operation is called exactly once. -/
theorem loop_for_nonpositive_deadline_spec_witness :
    loop_for 1 ⟨fun _ => FnRes.pending, fun _ => true⟩ ⟨1, 1, 3⟩ 0 (some ()) ⟨0, 0, 0⟩
        = some (LoopOut.state State.FAIL, ⟨0, 0, 0⟩) ∧
      ∃ out st2,
        loop_for 2 ⟨fun _ => FnRes.pending, fun _ => true⟩ ⟨1, 1, 3⟩ (-1) (some ())
            ⟨0, 0, 0⟩ = some (out, st2) ∧ st2.fnCalls = 0 + 1 :=
  ⟨(loop_for_nonpositive_deadline_spec ⟨fun _ => FnRes.pending, fun _ => true⟩ ⟨1, 1, 3⟩
      0 ⟨0, 0, 0⟩ 1).1 (by decide) (by decide) (le_refl 1),
   (loop_for_nonpositive_deadline_spec ⟨fun _ => FnRes.pending, fun _ => true⟩ ⟨1, 1, 3⟩
      (-1) ⟨0, 0, 0⟩ 2).2 (le_refl 2) (by decide) (by decide) (by decide)⟩

end AciUpgrade
